import Mathlib

/-!
Shallow embedding of `src/hotspot/src/share/vm/gc/g1/g1ParScanThreadState.cpp`
(OpenJDK G1 per-worker evacuation state) and proofs about it.

Machine pointers are modelled as `Nat` handles.  The pieces of the repository
that this file calls but whose code is outside the given source file (the PLAB
allocator internals, `oopDesc::forward_to_atomic`, `dispatch_reference`) are
modelled from the specification, as noted on each definition.
-/

/-- The in-collection-set state of a region/object, mirroring `InCSetState`.
The source file's constructor configures the `_dest` array only for these
three values. -/
inductive InCSetState
  | NotInCSet
  | Young
  | Old
deriving DecidableEq, Repr

/-- Embeds `InCSetState::is_young()`. -/
def InCSetState.is_young : InCSetState → Bool
  | .Young => true
  | _ => false

/-- Embeds `InCSetState::is_old()`. -/
def InCSetState.is_old : InCSetState → Bool
  | .Old => true
  | _ => false

/-- The `_dest` array as configured in the `G1ParScanThreadState` constructor
(lines 64-68): `_dest[NotInCSet] = NotInCSet; _dest[Young] = Old;
_dest[Old] = Old`. -/
def destMap : InCSetState → InCSetState
  | .NotInCSet => .NotInCSet
  | .Young => .Old
  | .Old => .Old

/-- A mark word that is itself not displaced: its age bits plus the remaining
(non-age) bits, abstracted as one number. -/
structure PlainMark where
  age : Nat
  rest : Nat
deriving DecidableEq, Repr

/-- Embeds `markOop::set_age` on a non-displaced mark: replaces the age bits only. -/
def PlainMark.set_age (m : PlainMark) (a : Nat) : PlainMark :=
  { m with age := a }

/-- An object header snapshot (`markOop`).  `rawAge`/`rawRest` are the bits of
the word itself (meaningful only when the mark is not displaced); `displaced`
is `some d` when the header has a displaced mark helper `d` (the real header
stored elsewhere while the word holds lock data). -/
structure MarkWord where
  rawAge : Nat
  rawRest : Nat
  displaced : Option PlainMark
deriving DecidableEq, Repr

/-- Embeds `markOop::has_displaced_mark_helper()`. -/
def MarkWord.has_displaced_mark_helper (m : MarkWord) : Bool :=
  m.displaced.isSome

/-- Embeds `markOop::displaced_mark_helper()`; the code only calls this when
`has_displaced_mark_helper()` holds, so the default is never relevant. -/
def MarkWord.displaced_mark_helper (m : MarkWord) : PlainMark :=
  m.displaced.getD ⟨m.rawAge, m.rawRest⟩

/-- Embeds `markOop::age()`, reading the age bits of the word itself. -/
def MarkWord.age (m : MarkWord) : Nat := m.rawAge

/-- Embeds `markOop::set_age` on the word itself. -/
def MarkWord.set_age (m : MarkWord) (a : Nat) : MarkWord :=
  { m with rawAge := a }

/-- Embeds `markOop::set_displaced_mark_helper`. -/
def MarkWord.set_displaced_mark_helper (m : MarkWord) (d : PlainMark) : MarkWord :=
  { m with displaced := some d }

/-- The age `next_state` reads at line 183-184: the word's own age bits, or
the displaced copy's when the header is displaced. -/
def MarkWord.readAge (m : MarkWord) : Nat :=
  if m.has_displaced_mark_helper then m.displaced_mark_helper.age else m.age

namespace markOopDesc

/-- Embeds `markOopDesc::max_age`: the age bits are 4 wide, so ages saturate at 15. -/
def max_age : Nat := 15

end markOopDesc

/-- The shared, atomically updated header cell of an object: either still an
ordinary mark word, or already forwarded to a destination. -/
inductive HeaderCell
  | unforwarded (m : MarkWord)
  | forwardedTo (p : Nat)
deriving DecidableEq, Repr

/-- Modelled from the spec: `oopDesc::forward_to_atomic` (outside this source
file) performs the single atomic claim of 4.4 step 5 — compare-and-swap the
header from its snapshot to a forwarding marker pointing at `target`,
returning NULL (`none`) on success, and on failure the target the peer
already installed, leaving the cell unchanged. -/
def forward_to_atomic (cell : HeaderCell) (target : Nat) : Option Nat × HeaderCell :=
  match cell with
  | .unforwarded _ => (none, .forwardedTo target)
  | .forwardedTo q => (some q, cell)

/-- A task on the per-worker reference queue: a plain reference, or a
reference carrying the deferred-array-chunk mask
(`set_partial_array_mask`). -/
inductive GCTask
  | ref (p : Nat)
  | maskedArray (p : Nat)
deriving DecidableEq, Repr

/-- The mutable per-worker state of `G1ParScanThreadState` that the claims
touch: the tenuring threshold, the age table (as the list of
`age_table()->add(age, words)` events), the surviving-young-words histogram
(as the list of `[index] += words` events), the queue contents pushed by the
copy path, and the PLAB allocator's two waste counters. -/
structure PSS where
  workerId : Nat
  tenuringThreshold : Nat
  ageTable : List (Nat × Nat)
  survYoungWords : List (Nat × Nat)
  queue : List GCTask
  allocWaste : Nat
  undoWaste : Nat
deriving DecidableEq, Repr

/-- Modelled from the spec: the per-call answers of the `G1PLABAllocator`
(its code is outside this source file).  Each function maps
(destination class, word size, allocation context) to the address it returns,
`none` for "no space" with no side effect (spec 4.2). -/
structure AllocOracle where
  plabAllocate : InCSetState → Nat → Nat → Option Nat
  allocateDirectOrNewPlab : InCSetState → Nat → Nat → Option Nat
  allocate : InCSetState → Nat → Nat → Option Nat

/-- Modelled from the spec: `G1PLABAllocator::undo_allocation` reverts the
just-made allocation and contributes its size to the undo-waste counter,
tracked separately from leftover waste (spec 4.2). -/
def undoAllocation (pss : PSS) (sz : Nat) : PSS :=
  { pss with undoWaste := pss.undoWaste + sz }

/-- The observable allocation-related events of one `copy_to_survivor_space`
call, in program order. -/
inductive GCEvent
  | plabAlloc (st : InCSetState) (sz ctx : Nat) (res : Option Nat)
  | directAlloc (st : InCSetState) (sz ctx : Nat) (res : Option Nat)
  | nextPlabAlloc (st : InCSetState) (sz ctx : Nat) (res : Option Nat)
  | undoAlloc (st : InCSetState) (p sz : Nat)
  | evacFailure (p : Nat)
deriving DecidableEq, Repr

/-- Embeds `G1ParScanThreadState::next_state` (lines 181-190).  `age` is the
caller's variable passed by reference (left untouched on the non-young
path); the result pairs the returned state with the final value of that
variable. -/
def next_state (tenuringThreshold : Nat) (state : InCSetState) (m : MarkWord)
    (age : Nat) : InCSetState × Nat :=
  if state.is_young then
    let a := if !m.has_displaced_mark_helper then m.age else m.displaced_mark_helper.age
    if a < tenuringThreshold then (state, a) else (destMap state, a)
  else
    (destMap state, age)

/-- Embeds `G1ParScanThreadState::allocate_in_next_plab` (lines 152-179): when the
destination is still young, try a direct allocation in the old-gen buffer;
on success zero the tenuring threshold and set the destination old.  When
the destination is already old there is no other space to try.  Returns
(result, updated dest, updated worker state, allocation events). -/
def allocate_in_next_plab (O : AllocOracle) (pss : PSS) (dest : InCSetState)
    (word_sz ctx : Nat) : Option Nat × InCSetState × PSS × List GCEvent :=
  if dest.is_young then
    match O.allocate .Old word_sz ctx with
    | none => (none, dest, pss, [.nextPlabAlloc .Old word_sz ctx none])
    | some p =>
        (some p, .Old, { pss with tenuringThreshold := 0 },
         [.nextPlabAlloc .Old word_sz ctx (some p)])
  else
    (none, dest, pss, [])

/-- The allocation fallback chain of `copy_to_survivor_space` lines 205-219:
`plab_allocate`, then `allocate_direct_or_new_plab`, then
`allocate_in_next_plab`, stopping at the first success.  Returns the obtained
pointer with the (possibly updated) destination state and worker state, plus
the events in order. -/
def allocChain (O : AllocOracle) (pss : PSS) (dest0 : InCSetState)
    (word_sz ctx : Nat) : Option (Nat × InCSetState) × PSS × List GCEvent :=
  match O.plabAllocate dest0 word_sz ctx with
  | some p => (some (p, dest0), pss, [.plabAlloc dest0 word_sz ctx (some p)])
  | none =>
    match O.allocateDirectOrNewPlab dest0 word_sz ctx with
    | some p =>
        (some (p, dest0), pss,
         [.plabAlloc dest0 word_sz ctx none, .directAlloc dest0 word_sz ctx (some p)])
    | none =>
      match allocate_in_next_plab O pss dest0 word_sz ctx with
      | (some p, dest', pss', evs) =>
          (some (p, dest'), pss',
           .plabAlloc dest0 word_sz ctx none :: .directAlloc dest0 word_sz ctx none :: evs)
      | (none, _, pss', evs) =>
          (none, pss',
           .plabAlloc dest0 word_sz ctx none :: .directAlloc dest0 word_sz ctx none :: evs)

/-- The facts about the object being copied that
`copy_to_survivor_space` reads: its address, `old->size()`, whether it is an
object array and its length, and the origin region's properties
(`is_young()`, `young_index_in_cset()` — `-1` for non-young regions —,
`allocation_context()`, and the region's evacuation-failed flag). -/
structure ObjInfo where
  ptr : Nat
  size : Nat
  isObjArray : Bool
  length : Nat
  regionIsYoung : Bool
  regionYoungIndexInCset : Int
  regionEvacFailed : Bool
  context : Nat
deriving DecidableEq, Repr

/-- The effects of one `handle_evacuation_failure_par` call. -/
structure EvacFailOutcome where
  ret : Nat
  cell : HeaderCell
  regionEvacFailed : Bool
  hookTriggered : Bool
  preserved : Option (Nat × Nat × MarkWord)
  scannedInPlace : Bool
deriving DecidableEq, Repr

/-- Embeds `G1ParScanThreadState::handle_evacuation_failure_par` (lines 296-326):
CAS the header from its snapshot to a self-forwarding marker.  On success,
flag the origin region as evacuation-failed (only the first flagger fires the
`hr_printer` hook), preserve the original mark in the side table keyed by
(worker, object), scan the fields in place, and return the object itself.
On failure return the resolution a peer already installed. -/
def handle_evacuation_failure_par (workerId : Nat) (old : Nat) (m : MarkWord)
    (cell : HeaderCell) (regionEvacFailed : Bool) : EvacFailOutcome :=
  match forward_to_atomic cell old with
  | (none, cell') =>
      { ret := old
        cell := cell'
        regionEvacFailed := true
        hookTriggered := !regionEvacFailed
        preserved := some (workerId, old, m)
        scannedInPlace := true }
  | (some fp, cell') =>
      { ret := fp
        cell := cell'
        regionEvacFailed := regionEvacFailed
        hookTriggered := false
        preserved := none
        scannedInPlace := false }

/-- The configuration a `copy_to_survivor_space` call runs under: the PLAB
allocator's answers, whether string deduplication is enabled, the
fault-injection predicate `evacuation_should_fail()` (compiled out in product
builds), and the `ParGCArrayScanChunk` flag. -/
structure CopyEnv where
  oracle : AllocOracle
  dedupEnabled : Bool
  evacShouldFail : Bool
  parGCArrayScanChunk : Nat

/-- Everything one `copy_to_survivor_space` call returns and does: the oop it
returns, the updated worker state, the updated shared header cell of the
source object, the allocation events in order, the mark word written to the
destination copy's header (`none` when no copy happened), whether the
destination array length was zeroed, whether the destination was scanned
inline, whether a bulk copy happened, whether the dedup hook fired, and the
evacuation-failure effects when that path was taken. -/
structure CopyOutcome where
  ret : Nat
  pss : PSS
  cell : HeaderCell
  events : List GCEvent
  destMark : Option MarkWord
  lengthZeroed : Bool
  scannedInline : Bool
  copied : Bool
  dedupFired : Bool
  regionEvacFailed : Bool
  evacHookTriggered : Bool
  preserved : Option (Nat × Nat × MarkWord)
  scannedInPlace : Bool
deriving DecidableEq, Repr

/-- Lift an `EvacFailOutcome` into the `CopyOutcome` of the enclosing
`copy_to_survivor_space` call. -/
def evacToCopyOutcome (pss : PSS) (evs : List GCEvent) (ef : EvacFailOutcome) :
    CopyOutcome :=
  { ret := ef.ret
    pss := pss
    cell := ef.cell
    events := evs
    destMark := none
    lengthZeroed := false
    scannedInline := false
    copied := false
    dedupFired := false
    regionEvacFailed := ef.regionEvacFailed
    evacHookTriggered := ef.hookTriggered
    preserved := ef.preserved
    scannedInPlace := ef.scannedInPlace }

/-- Embeds `G1ParScanThreadState::copy_to_survivor_space` (lines 192-294), with the
source object's shared header cell passed in explicitly.  The structure
follows the source: compute size, young index and destination state; run the
allocation fallback chain; on total failure hand off to
`handle_evacuation_failure_par`; the non-product fault-injection hook undoes
the allocation and hands off likewise; otherwise attempt the atomic claim and
either perform the copy (fix the destination mark and age, record histograms,
fire dedup, defer large arrays, or scan inline) or undo the allocation and
return the peer's target. -/
def copy_to_survivor_space (env : CopyEnv) (pss : PSS) (state : InCSetState)
    (old : ObjInfo) (old_mark : MarkWord) (cell : HeaderCell) : CopyOutcome :=
  let word_sz := old.size
  let young_index : Nat := (old.regionYoungIndexInCset + 1).toNat
  let ctx := old.context
  let sa := next_state pss.tenuringThreshold state old_mark 0
  let dest_state0 := sa.1
  let age0 := sa.2
  match allocChain env.oracle pss dest_state0 word_sz ctx with
  | (none, pss1, evs) =>
      evacToCopyOutcome pss1 (evs ++ [.evacFailure old.ptr])
        (handle_evacuation_failure_par pss1.workerId old.ptr old_mark cell
          old.regionEvacFailed)
  | (some (obj_ptr, dest_state), pss1, evs) =>
    if env.evacShouldFail then
      -- non-product `evacuation_should_fail()` hook (lines 224-232)
      evacToCopyOutcome (undoAllocation pss1 word_sz)
        (evs ++ [.undoAlloc dest_state obj_ptr word_sz, .evacFailure old.ptr])
        (handle_evacuation_failure_par pss1.workerId old.ptr old_mark cell
          old.regionEvacFailed)
    else
      match forward_to_atomic cell obj_ptr with
      | (none, cell') =>
          -- claim succeeded: bulk copy and fix-up (lines 240-289)
          let destAge := if age0 < markOopDesc.max_age then age0 + 1 else age0
          let destMark :=
            if dest_state.is_young then
              if old_mark.has_displaced_mark_helper then
                old_mark.set_displaced_mark_helper
                  (old_mark.displaced_mark_helper.set_age destAge)
              else
                old_mark.set_age destAge
            else
              old_mark
          let pss2 :=
            if dest_state.is_young then
              { pss1 with ageTable := pss1.ageTable ++ [(destAge, word_sz)] }
            else
              pss1
          let pss3 :=
            { pss2 with survYoungWords := pss2.survYoungWords ++ [(young_index, word_sz)] }
          let deferBigArray := old.isObjArray && env.parGCArrayScanChunk ≤ old.length
          let pss4 :=
            if deferBigArray then
              { pss3 with queue := pss3.queue ++ [GCTask.maskedArray old.ptr] }
            else
              pss3
          { ret := obj_ptr
            pss := pss4
            cell := cell'
            events := evs
            destMark := some destMark
            lengthZeroed := deferBigArray
            scannedInline := !deferBigArray
            copied := true
            dedupFired := env.dedupEnabled
            regionEvacFailed := old.regionEvacFailed
            evacHookTriggered := false
            preserved := none
            scannedInPlace := false }
      | (some forward_ptr, cell') =>
          -- claim failed: undo the allocation and return the peer's target
          { ret := forward_ptr
            pss := undoAllocation pss1 word_sz
            cell := cell'
            events := evs ++ [.undoAlloc dest_state obj_ptr word_sz]
            destMark := none
            lengthZeroed := false
            scannedInline := false
            copied := false
            dedupFired := false
            regionEvacFailed := old.regionEvacFailed
            evacHookTriggered := false
            preserved := none
            scannedInPlace := false }

/-- The per-worker reference queue `_refs`: a bounded LIFO local part and an
overflow part (spec 3 / 4.1).  Heads of the lists are the pop ends. -/
structure RefQueue where
  localElems : List GCTask
  overflowElems : List GCTask
deriving DecidableEq, Repr

/-- Modelled from the spec: `push` places the entry in the local part or the
overflow part according to local capacity (spec 4.1; the task-queue code is
outside this source file). -/
def RefQueue.push (cap : Nat) (q : RefQueue) (t : GCTask) : RefQueue :=
  if q.localElems.length < cap then
    { q with localElems := t :: q.localElems }
  else
    { q with overflowElems := t :: q.overflowElems }

/-- Embeds `is_empty()`: true only when both parts are drained (spec 4.1). -/
def RefQueue.is_empty (q : RefQueue) : Bool :=
  q.localElems.isEmpty && q.overflowElems.isEmpty

/-- Push every child produced by dispatching one reference
(modelled from the spec: `dispatch_reference` is outside this source file;
processing an entry may enqueue new children, spec 4.1). -/
def dispatchInto (cap : Nat) (dispatch : GCTask → List GCTask) (q : RefQueue)
    (t : GCTask) : RefQueue :=
  (dispatch t).foldl (RefQueue.push cap) q

/-- The first inner loop of `trim_queue` (lines 142-144):
`while (_refs->pop_overflow(ref)) dispatch_reference(ref);`.  `fuel` bounds
the number of iterations; `none` means the fuel ran out. -/
def drainOverflow (cap : Nat) (dispatch : GCTask → List GCTask) :
    Nat → RefQueue → Option RefQueue
  | 0, _ => none
  | fuel + 1, q =>
    match q.overflowElems with
    | [] => some q
    | t :: rest =>
        drainOverflow cap dispatch fuel
          (dispatchInto cap dispatch { q with overflowElems := rest } t)

/-- The second inner loop of `trim_queue` (lines 146-148):
`while (_refs->pop_local(ref)) dispatch_reference(ref);`. -/
def drainLocal (cap : Nat) (dispatch : GCTask → List GCTask) :
    Nat → RefQueue → Option RefQueue
  | 0, _ => none
  | fuel + 1, q =>
    match q.localElems with
    | [] => some q
    | t :: rest =>
        drainLocal cap dispatch fuel
          (dispatchInto cap dispatch { q with localElems := rest } t)

/-- Embeds `G1ParScanThreadState::trim_queue` (lines 138-150): repeatedly drain the
overflow part, then the local part, until `is_empty()` reports both drained.
`fuel` bounds the number of rounds of each loop; `none` means the fuel ran
out before the queue was empty. -/
def trim_queue (cap : Nat) (dispatch : GCTask → List GCTask) :
    Nat → RefQueue → Option RefQueue
  | 0, _ => none
  | fuel + 1, q =>
    match drainOverflow cap dispatch fuel q with
    | none => none
    | some q1 =>
      match drainLocal cap dispatch fuel q1 with
      | none => none
      | some q2 =>
        if q2.is_empty then some q2 else trim_queue cap dispatch fuel q2

/-- The numbers `print_termination_stats` (lines 86-101) computes, over exact
rationals in place of C doubles, together with the divisor it uses for the
two percentage columns. -/
structure TermStats where
  elapsedMs : ℚ
  strongRootsMs : ℚ
  termMs : ℚ
  strongRootsPct : ℚ
  termPct : ℚ
deriving DecidableEq

/-- Embeds `G1ParScanThreadState::print_termination_stats` (lines 86-101), the
arithmetic part: `elapsed_ms = elapsed_time() * 1000`, likewise for the
strong-roots and termination times, and the two percentage columns
`s_roots_ms * 100 / elapsed_ms` and `term_ms * 100 / elapsed_ms` — no guard
against a zero divisor anywhere. -/
def print_termination_stats (elapsed strongRoots term : ℚ) : TermStats :=
  let elapsed_ms := elapsed * 1000
  let s_roots_ms := strongRoots * 1000
  let term_ms := term * 1000
  { elapsedMs := elapsed_ms
    strongRootsMs := s_roots_ms
    termMs := term_ms
    strongRootsPct := s_roots_ms * 100 / elapsed_ms
    termPct := term_ms * 100 / elapsed_ms }

/-! ### Helper lemmas -/

lemma readAge_eq (m : MarkWord) :
    (if !m.has_displaced_mark_helper then m.age else m.displaced_mark_helper.age)
      = m.readAge := by
  by_cases h : m.has_displaced_mark_helper <;> simp [MarkWord.readAge, h]

lemma next_state_young_eq (th : Nat) (m : MarkWord) (a : Nat) :
    next_state th .Young m a =
      if m.readAge < th then (.Young, m.readAge) else (.Old, m.readAge) := by
  unfold next_state MarkWord.readAge
  by_cases h : m.has_displaced_mark_helper <;>
    simp [InCSetState.is_young, destMap, h]

lemma next_state_nonyoung (th : Nat) (st : InCSetState) (m : MarkWord) (a : Nat)
    (h : st.is_young = false) : next_state th st m a = (destMap st, a) := by
  unfold next_state
  simp [h]

lemma next_state_fst_young (th : Nat) (st : InCSetState) (m : MarkWord) (a : Nat)
    (h : ((next_state th st m a).1).is_young = true) :
    st = .Young ∧ m.readAge < th ∧
      next_state th st m a = (.Young, m.readAge) := by
  cases st with
  | Young =>
      rw [next_state_young_eq] at h ⊢
      by_cases hlt : m.readAge < th
      · simp [hlt]
      · simp [hlt, InCSetState.is_young] at h
  | NotInCSet =>
      rw [next_state_nonyoung th InCSetState.NotInCSet m a (by rfl)] at h
      simp [destMap, InCSetState.is_young] at h
  | Old =>
      rw [next_state_nonyoung th InCSetState.Old m a (by rfl)] at h
      simp [destMap, InCSetState.is_young] at h

/-- The allocation chain either leaves the worker state alone or (after
cross-class escalation) only zeroes the tenuring threshold. -/
lemma allocChain_pss (O : AllocOracle) (pss : PSS) (d0 : InCSetState)
    (sz ctx : Nat) :
    (allocChain O pss d0 sz ctx).2.1 = pss ∨
      (allocChain O pss d0 sz ctx).2.1 = { pss with tenuringThreshold := 0 } := by
  unfold allocChain allocate_in_next_plab
  cases h1 : O.plabAllocate d0 sz ctx with
  | some p => simp
  | none =>
    cases h2 : O.allocateDirectOrNewPlab d0 sz ctx with
    | some p => simp
    | none =>
      by_cases hy : d0.is_young
      · cases h3 : O.allocate .Old sz ctx with
        | none => simp [hy, h3]
        | some p => simp [hy, h3]
      · simp [hy]

/-- On a successful chain the destination either stays what `next_state`
chose or was escalated from young to old. -/
lemma allocChain_some_dest (O : AllocOracle) (pss : PSS) (d0 : InCSetState)
    (sz ctx : Nat) (p : Nat) (d : InCSetState) (pss1 : PSS) (evs : List GCEvent)
    (h : allocChain O pss d0 sz ctx = (some (p, d), pss1, evs)) :
    d = d0 ∨ (d = .Old ∧ d0.is_young = true) := by
  unfold allocChain allocate_in_next_plab at h
  cases h1 : O.plabAllocate d0 sz ctx with
  | some q =>
    rw [h1] at h
    simp at h
    exact Or.inl h.1.2.symm
  | none =>
    rw [h1] at h
    cases h2 : O.allocateDirectOrNewPlab d0 sz ctx with
    | some q =>
      rw [h2] at h
      simp at h
      exact Or.inl h.1.2.symm
    | none =>
      rw [h2] at h
      by_cases hy : d0.is_young
      · cases h3 : O.allocate .Old sz ctx with
        | none => simp [hy, h3] at h
        | some q =>
          simp [hy, h3] at h
          right
          exact ⟨h.1.2.symm, hy⟩
      · simp [hy] at h

/-! ### Claim theorems -/

/-- Claim C3: `next_state` writes the (displaced-aware) header age into the
output for a young state and keeps the survivor state exactly when that age
is below the tenuring threshold; in every other case it returns the
destination-map entry, under the fixed map NotInCSet→NotInCSet, Young→Old,
Old→Old, so an old (promoted) state is never mapped back to young. -/
theorem C3_next_state_policy (th : Nat) (state : InCSetState) (m : MarkWord)
    (ageIn : Nat) :
    (state.is_young = true →
      (next_state th state m ageIn).2 = m.readAge ∧
      (m.readAge < th → next_state th state m ageIn = (state, m.readAge)) ∧
      (th ≤ m.readAge → next_state th state m ageIn = (destMap state, m.readAge))) ∧
    (state.is_young = false → next_state th state m ageIn = (destMap state, ageIn)) ∧
    destMap .NotInCSet = .NotInCSet ∧ destMap .Young = .Old ∧ destMap .Old = .Old ∧
    (next_state th .Old m ageIn).1 = .Old := by
  refine ⟨?_, next_state_nonyoung th state m ageIn, rfl, rfl, rfl, ?_⟩
  · intro hy
    have hst : state = .Young := by
      cases state <;> simp [InCSetState.is_young] at hy ⊢
    subst hst
    rw [next_state_young_eq]
    by_cases hlt : m.readAge < th <;> simp [hlt, destMap]
  · rw [next_state_nonyoung th InCSetState.Old m ageIn (by rfl)]
    rfl

/-- Witness for C3 at concrete inputs. -/
theorem C3_next_state_policy_witness :
    next_state 5 .Young ⟨3, 0, none⟩ 0 = (.Young, 3) ∧
      next_state 5 .Old ⟨3, 0, none⟩ 0 = (.Old, 0) :=
  ⟨((C3_next_state_policy 5 .Young ⟨3, 0, none⟩ 0).1 (by decide)).2.1 (by decide),
   (C3_next_state_policy 5 .Old ⟨3, 0, none⟩ 0).2.1 (by decide)⟩

/-- Claim C6: `handle_evacuation_failure_par` self-forwards via CAS; on
success it flags the region (only the first flagger fires the hook),
preserves the original mark keyed by (worker, object), scans in place and
returns the object; on failure it returns the peer's resolution with none of
those effects. -/
theorem C6_handle_evacuation_failure (w old : Nat) (m m0 : MarkWord)
    (prior : Bool) (q : Nat) :
    handle_evacuation_failure_par w old m (.unforwarded m0) prior =
      { ret := old, cell := .forwardedTo old, regionEvacFailed := true,
        hookTriggered := !prior, preserved := some (w, old, m),
        scannedInPlace := true } ∧
    handle_evacuation_failure_par w old m (.forwardedTo q) prior =
      { ret := q, cell := .forwardedTo q, regionEvacFailed := prior,
        hookTriggered := false, preserved := none, scannedInPlace := false } :=
  ⟨rfl, rfl⟩

/-- Claim C10: `print_termination_stats` divides by `elapsed_ms =
elapsed * 1000` with no zero guard: the percentages equal the intended
values exactly when the elapsed time is nonzero, and a call with elapsed
time zero reaches the division with a zero divisor. -/
theorem C10_termination_stats_division (e s t : ℚ) :
    (print_termination_stats e s t).strongRootsPct
        = (print_termination_stats e s t).strongRootsMs * 100
            / (print_termination_stats e s t).elapsedMs ∧
    (print_termination_stats e s t).termPct
        = (print_termination_stats e s t).termMs * 100
            / (print_termination_stats e s t).elapsedMs ∧
    (e = 0 → (print_termination_stats e s t).elapsedMs = 0) ∧
    (e ≠ 0 →
      (print_termination_stats e s t).strongRootsPct = s * 100 / e ∧
      (print_termination_stats e s t).termPct = t * 100 / e) := by
  refine ⟨rfl, rfl, ?_, ?_⟩
  · intro h
    simp [print_termination_stats, h]
  · intro h
    unfold print_termination_stats
    constructor <;> · field_simp; ring

/-- Witness for C10 at concrete inputs, both for a nonzero and for a zero
elapsed time. -/
theorem C10_termination_stats_division_witness :
    ((1 : ℚ) ≠ 0 ∧
      (print_termination_stats 1 (1/2) (1/4)).strongRootsPct = (1/2) * 100 / 1) ∧
    (print_termination_stats 0 (1/2) (1/4)).elapsedMs = 0 :=
  ⟨⟨by norm_num,
    ((C10_termination_stats_division 1 (1/2) (1/4)).2.2.2 (by norm_num)).1⟩,
   (C10_termination_stats_division 0 (1/2) (1/4)).2.2.1 rfl⟩

/-- The CAS-failure branch of `copy_to_survivor_space` in closed form: when
the allocation chain produced `(p, d)` but the source header is already
forwarded to `q`, the call undoes the allocation and returns `q`. -/
lemma copy_cas_fail_eq (env : CopyEnv) (pss : PSS) (state : InCSetState)
    (old : ObjInfo) (old_mark : MarkWord) (q p : Nat) (d : InCSetState)
    (pss1 : PSS) (evs : List GCEvent)
    (hc : allocChain env.oracle pss
        (next_state pss.tenuringThreshold state old_mark 0).1 old.size old.context
        = (some (p, d), pss1, evs))
    (hf : env.evacShouldFail = false) :
    copy_to_survivor_space env pss state old old_mark (.forwardedTo q) =
      { ret := q
        pss := undoAllocation pss1 old.size
        cell := .forwardedTo q
        events := evs ++ [.undoAlloc d p old.size]
        destMark := none
        lengthZeroed := false
        scannedInline := false
        copied := false
        dedupFired := false
        regionEvacFailed := old.regionEvacFailed
        evacHookTriggered := false
        preserved := none
        scannedInPlace := false } := by
  simp only [copy_to_survivor_space, hc, hf]
  rfl

/-- The winning branch of `copy_to_survivor_space` in closed form, with the
worker state written field-wise. -/
lemma copy_win_eq (env : CopyEnv) (pss : PSS) (state : InCSetState)
    (old : ObjInfo) (old_mark m0 : MarkWord) (p : Nat) (d : InCSetState)
    (pss1 : PSS) (evs : List GCEvent)
    (hc : allocChain env.oracle pss
        (next_state pss.tenuringThreshold state old_mark 0).1 old.size old.context
        = (some (p, d), pss1, evs))
    (hf : env.evacShouldFail = false) :
    copy_to_survivor_space env pss state old old_mark (.unforwarded m0) =
      { ret := p
        pss :=
          { workerId := pss1.workerId
            tenuringThreshold := pss1.tenuringThreshold
            ageTable :=
              if d.is_young then
                pss1.ageTable ++
                  [(if (next_state pss.tenuringThreshold state old_mark 0).2
                        < markOopDesc.max_age then
                      (next_state pss.tenuringThreshold state old_mark 0).2 + 1
                    else (next_state pss.tenuringThreshold state old_mark 0).2,
                    old.size)]
              else pss1.ageTable
            survYoungWords :=
              pss1.survYoungWords ++
                [((old.regionYoungIndexInCset + 1).toNat, old.size)]
            queue :=
              if old.isObjArray && env.parGCArrayScanChunk ≤ old.length then
                pss1.queue ++ [GCTask.maskedArray old.ptr]
              else pss1.queue
            allocWaste := pss1.allocWaste
            undoWaste := pss1.undoWaste }
        cell := .forwardedTo p
        events := evs
        destMark := some
          (if d.is_young then
            (if old_mark.has_displaced_mark_helper then
              old_mark.set_displaced_mark_helper
                (old_mark.displaced_mark_helper.set_age
                  (if (next_state pss.tenuringThreshold state old_mark 0).2
                        < markOopDesc.max_age then
                    (next_state pss.tenuringThreshold state old_mark 0).2 + 1
                  else (next_state pss.tenuringThreshold state old_mark 0).2))
            else
              old_mark.set_age
                (if (next_state pss.tenuringThreshold state old_mark 0).2
                      < markOopDesc.max_age then
                  (next_state pss.tenuringThreshold state old_mark 0).2 + 1
                else (next_state pss.tenuringThreshold state old_mark 0).2))
          else old_mark)
        lengthZeroed := old.isObjArray && env.parGCArrayScanChunk ≤ old.length
        scannedInline := !(old.isObjArray && env.parGCArrayScanChunk ≤ old.length)
        copied := true
        dedupFired := env.dedupEnabled
        regionEvacFailed := old.regionEvacFailed
        evacHookTriggered := false
        preserved := none
        scannedInPlace := false } := by
  simp only [copy_to_survivor_space, hc, hf]
  by_cases hy : d.is_young <;>
    by_cases hb : old.isObjArray && env.parGCArrayScanChunk ≤ old.length <;>
      simp [hy, hb, forward_to_atomic]

/-- The total-allocation-failure branch of `copy_to_survivor_space` in
closed form: the call hands the object to `handle_evacuation_failure_par`. -/
lemma copy_evacfail_eq (env : CopyEnv) (pss : PSS) (state : InCSetState)
    (old : ObjInfo) (old_mark : MarkWord) (cell : HeaderCell)
    (pss1 : PSS) (evs : List GCEvent)
    (hc : allocChain env.oracle pss
        (next_state pss.tenuringThreshold state old_mark 0).1 old.size old.context
        = (none, pss1, evs)) :
    copy_to_survivor_space env pss state old old_mark cell =
      evacToCopyOutcome pss1 (evs ++ [.evacFailure old.ptr])
        (handle_evacuation_failure_par pss1.workerId old.ptr old_mark cell
          old.regionEvacFailed) := by
  simp only [copy_to_survivor_space, hc]

/-- The fault-injection branch (`evacuation_should_fail()` true in a
non-product build): the allocation is undone and the object handed to
`handle_evacuation_failure_par`. -/
lemma copy_fault_eq (env : CopyEnv) (pss : PSS) (state : InCSetState)
    (old : ObjInfo) (old_mark : MarkWord) (cell : HeaderCell) (p : Nat)
    (d : InCSetState) (pss1 : PSS) (evs : List GCEvent)
    (hc : allocChain env.oracle pss
        (next_state pss.tenuringThreshold state old_mark 0).1 old.size old.context
        = (some (p, d), pss1, evs))
    (hf : env.evacShouldFail = true) :
    copy_to_survivor_space env pss state old old_mark cell =
      evacToCopyOutcome (undoAllocation pss1 old.size)
        (evs ++ [.undoAlloc d p old.size, .evacFailure old.ptr])
        (handle_evacuation_failure_par pss1.workerId old.ptr old_mark cell
          old.regionEvacFailed) := by
  simp only [copy_to_survivor_space, hc, hf]
  rfl

/-- Nothing in `copy_to_survivor_space` ever raises the worker's tenuring
threshold; the only mutation (cross-class escalation) zeroes it. -/
lemma copy_tenuring_le (env : CopyEnv) (pss : PSS) (state : InCSetState)
    (old : ObjInfo) (old_mark : MarkWord) (cell : HeaderCell) :
    (copy_to_survivor_space env pss state old old_mark cell).pss.tenuringThreshold
      ≤ pss.tenuringThreshold := by
  have hch := allocChain_pss env.oracle pss
      (next_state pss.tenuringThreshold state old_mark 0).1 old.size old.context
  rcases h : allocChain env.oracle pss
      (next_state pss.tenuringThreshold state old_mark 0).1 old.size old.context
    with ⟨ores, pss1, evs⟩
  rw [h] at hch
  have hth : pss1.tenuringThreshold ≤ pss.tenuringThreshold := by
    rcases hch with h' | h' <;> simp at h' <;> simp [h']
  cases ores with
  | none =>
    rw [copy_evacfail_eq env pss state old old_mark cell pss1 evs h]
    simpa [evacToCopyOutcome] using hth
  | some pd =>
    obtain ⟨p, d⟩ := pd
    by_cases hf : env.evacShouldFail
    · rw [copy_fault_eq env pss state old old_mark cell p d pss1 evs h hf]
      simpa [evacToCopyOutcome, undoAllocation] using hth
    · have hf' : env.evacShouldFail = false := by simpa using hf
      cases cell with
      | forwardedTo q =>
        rw [copy_cas_fail_eq env pss state old old_mark q p d pss1 evs h hf']
        simpa [undoAllocation] using hth
      | unforwarded m0 =>
        rw [copy_win_eq env pss state old old_mark m0 p d pss1 evs h hf']
        simpa using hth

/-- Claim C5: successful cross-class escalation in `allocate_in_next_plab`
zeroes the worker's tenuring threshold and moves the destination to old;
`copy_to_survivor_space` never raises the threshold back (so once zero it
stays zero this pass), and with a zero threshold `next_state` routes every
object to old; when the destination is already old, `allocate_in_next_plab`
fails with no further fallback and no state change. -/
theorem C5_escalation_permanent :
    (∀ (O : AllocOracle) (pss : PSS) (sz ctx p : Nat),
      O.allocate .Old sz ctx = some p →
      allocate_in_next_plab O pss .Young sz ctx =
        (some p, .Old, { pss with tenuringThreshold := 0 },
         [.nextPlabAlloc .Old sz ctx (some p)])) ∧
    (∀ (O : AllocOracle) (pss : PSS) (sz ctx : Nat),
      allocate_in_next_plab O pss .Old sz ctx = (none, .Old, pss, [])) ∧
    (∀ (env : CopyEnv) (pss : PSS) (state : InCSetState) (old : ObjInfo)
      (old_mark : MarkWord) (cell : HeaderCell),
      pss.tenuringThreshold = 0 →
      (copy_to_survivor_space env pss state old old_mark cell).pss.tenuringThreshold
        = 0) ∧
    (∀ (m : MarkWord) (a : Nat),
      (next_state 0 .Young m a).1 = .Old ∧ (next_state 0 .Old m a).1 = .Old) := by
  refine ⟨?_, ?_, ?_, ?_⟩
  · intro O pss sz ctx p h
    unfold allocate_in_next_plab
    simp [InCSetState.is_young, h]
  · intro O pss sz ctx
    unfold allocate_in_next_plab
    simp [InCSetState.is_young]
  · intro env pss state old old_mark cell h
    have := copy_tenuring_le env pss state old old_mark cell
    omega
  · intro m a
    constructor
    · rw [next_state_young_eq]
      simp
    · rw [next_state_nonyoung 0 InCSetState.Old m a (by rfl)]
      rfl

/-- Example PLAB-allocator answers used by witnesses: the first attempt
succeeds. -/
def exOracle : AllocOracle :=
  ⟨fun _ _ _ => some 64, fun _ _ _ => none, fun _ _ _ => some 128⟩

/-- Example environment used by witnesses. -/
def exEnv : CopyEnv :=
  { oracle := exOracle, dedupEnabled := false, evacShouldFail := false,
    parGCArrayScanChunk := 50 }

/-- Example worker state used by witnesses: worker 1, threshold 3. -/
def exPss : PSS := ⟨1, 3, [], [], [], 0, 0⟩

/-- Example 4-word non-array object used by witnesses. -/
def exObj : ObjInfo :=
  { ptr := 10, size := 4, isObjArray := false, length := 0,
    regionIsYoung := true, regionYoungIndexInCset := 0,
    regionEvacFailed := false, context := 0 }

/-- Example non-displaced mark of age 1 used by witnesses. -/
def exMark : MarkWord := ⟨1, 7, none⟩

/-- Witness for C5 at concrete inputs. -/
theorem C5_escalation_permanent_witness :
    allocate_in_next_plab exOracle exPss .Young 4 0 =
      (some 128, .Old, { exPss with tenuringThreshold := 0 },
       [.nextPlabAlloc .Old 4 0 (some 128)]) ∧
    (copy_to_survivor_space exEnv { exPss with tenuringThreshold := 0 } .Young
        exObj exMark (.unforwarded exMark)).pss.tenuringThreshold = 0 :=
  ⟨C5_escalation_permanent.1 exOracle exPss 4 0 128 rfl,
   C5_escalation_permanent.2.2.1 exEnv { exPss with tenuringThreshold := 0 }
     .Young exObj exMark (.unforwarded exMark) rfl⟩

/-- Claim C2: `copy_to_survivor_space` tries `plab_allocate`, then
`allocate_direct_or_new_plab`, then cross-class `allocate_in_next_plab`,
stopping at the first success; it hands the object to
`handle_evacuation_failure_par` exactly when all three returned no memory,
and after any successful allocation none of the failure handler's effects
occur. -/
theorem C2_alloc_fallback_order (env : CopyEnv) (pss : PSS)
    (state : InCSetState) (old : ObjInfo) (old_mark : MarkWord)
    (cell : HeaderCell) (d0 : InCSetState)
    (hd0 : d0 = (next_state pss.tenuringThreshold state old_mark 0).1)
    (hf : env.evacShouldFail = false) :
    (∀ p, env.oracle.plabAllocate d0 old.size old.context = some p →
      allocChain env.oracle pss d0 old.size old.context
        = (some (p, d0), pss, [.plabAlloc d0 old.size old.context (some p)])) ∧
    (∀ p, env.oracle.plabAllocate d0 old.size old.context = none →
      env.oracle.allocateDirectOrNewPlab d0 old.size old.context = some p →
      allocChain env.oracle pss d0 old.size old.context
        = (some (p, d0), pss,
           [.plabAlloc d0 old.size old.context none,
            .directAlloc d0 old.size old.context (some p)])) ∧
    (∀ p, env.oracle.plabAllocate d0 old.size old.context = none →
      env.oracle.allocateDirectOrNewPlab d0 old.size old.context = none →
      d0.is_young = true →
      env.oracle.allocate .Old old.size old.context = some p →
      allocChain env.oracle pss d0 old.size old.context
        = (some (p, .Old), { pss with tenuringThreshold := 0 },
           [.plabAlloc d0 old.size old.context none,
            .directAlloc d0 old.size old.context none,
            .nextPlabAlloc .Old old.size old.context (some p)])) ∧
    (∀ pss1 evs,
      allocChain env.oracle pss d0 old.size old.context = (none, pss1, evs) →
      copy_to_survivor_space env pss state old old_mark cell
        = evacToCopyOutcome pss1 (evs ++ [.evacFailure old.ptr])
            (handle_evacuation_failure_par pss1.workerId old.ptr old_mark cell
              old.regionEvacFailed)) ∧
    (∀ p d pss1 evs,
      allocChain env.oracle pss d0 old.size old.context
          = (some (p, d), pss1, evs) →
      (copy_to_survivor_space env pss state old old_mark cell).preserved = none ∧
      (copy_to_survivor_space env pss state old old_mark cell).scannedInPlace
        = false ∧
      (copy_to_survivor_space env pss state old old_mark cell).evacHookTriggered
        = false) := by
  subst hd0
  refine ⟨?_, ?_, ?_, ?_, ?_⟩
  · intro p h
    unfold allocChain
    simp [h]
  · intro p h1 h2
    unfold allocChain
    simp [h1, h2]
  · intro p h1 h2 hy h3
    unfold allocChain allocate_in_next_plab
    simp [h1, h2, hy, h3]
  · intro pss1 evs h
    exact copy_evacfail_eq env pss state old old_mark cell pss1 evs h
  · intro p d pss1 evs h
    cases cell with
    | forwardedTo q =>
      rw [copy_cas_fail_eq env pss state old old_mark q p d pss1 evs h hf]
      exact ⟨rfl, rfl, rfl⟩
    | unforwarded m0 =>
      rw [copy_win_eq env pss state old old_mark m0 p d pss1 evs h hf]
      exact ⟨rfl, rfl, rfl⟩

/-- Witness for C2 at concrete inputs: the first attempt succeeds and the
chain stops there; the failure handler's effects are absent. -/
theorem C2_alloc_fallback_order_witness :
    allocChain exEnv.oracle exPss .Young 4 0
      = (some (64, .Young), exPss, [.plabAlloc .Young 4 0 (some 64)]) ∧
    (copy_to_survivor_space exEnv exPss .Young exObj exMark
        (.unforwarded exMark)).preserved = none :=
  ⟨(C2_alloc_fallback_order exEnv exPss .Young exObj exMark
      (.unforwarded exMark) .Young (by decide) rfl).1 64 rfl,
   ((C2_alloc_fallback_order exEnv exPss .Young exObj exMark
      (.unforwarded exMark) .Young (by decide) rfl).2.2.2.2 64 .Young exPss
      [.plabAlloc .Young 4 0 (some 64)] (by decide)).1⟩

/-- Claim C1: when the forwarding CAS fails, `copy_to_survivor_space` undoes
the just-made allocation with the same class, pointer and size, performs no
copy and no scan, and returns the peer's target; sequentializing two workers
racing on the same unforwarded object, the first one's claim succeeds and
the second (loser) returns exactly the winner's destination. -/
theorem C1_cas_loser_returns_winner (envA envB : CopyEnv) (pssA pssB : PSS)
    (stA stB : InCSetState) (old : ObjInfo) (mA mB m0 : MarkWord)
    (pA pB : Nat) (dA dB : InCSetState) (pssA1 pssB1 : PSS)
    (evsA evsB : List GCEvent) (q : Nat)
    (hfA : envA.evacShouldFail = false) (hfB : envB.evacShouldFail = false)
    (hcA : allocChain envA.oracle pssA
        (next_state pssA.tenuringThreshold stA mA 0).1 old.size old.context
        = (some (pA, dA), pssA1, evsA))
    (hcB : allocChain envB.oracle pssB
        (next_state pssB.tenuringThreshold stB mB 0).1 old.size old.context
        = (some (pB, dB), pssB1, evsB)) :
    ((copy_to_survivor_space envB pssB stB old mB (.forwardedTo q)).ret = q ∧
     (copy_to_survivor_space envB pssB stB old mB (.forwardedTo q)).events
        = evsB ++ [.undoAlloc dB pB old.size] ∧
     (copy_to_survivor_space envB pssB stB old mB (.forwardedTo q)).pss
        = undoAllocation pssB1 old.size ∧
     (copy_to_survivor_space envB pssB stB old mB (.forwardedTo q)).copied
        = false ∧
     (copy_to_survivor_space envB pssB stB old mB (.forwardedTo q)).scannedInline
        = false ∧
     (copy_to_survivor_space envB pssB stB old mB (.forwardedTo q)).destMark
        = none) ∧
    ((copy_to_survivor_space envA pssA stA old mA (.unforwarded m0)).copied
        = true ∧
     (copy_to_survivor_space envA pssA stA old mA (.unforwarded m0)).ret = pA ∧
     (copy_to_survivor_space envA pssA stA old mA (.unforwarded m0)).cell
        = .forwardedTo pA ∧
     (copy_to_survivor_space envB pssB stB old mB
        (copy_to_survivor_space envA pssA stA old mA (.unforwarded m0)).cell).copied
        = false ∧
     (copy_to_survivor_space envB pssB stB old mB
        (copy_to_survivor_space envA pssA stA old mA (.unforwarded m0)).cell).ret
        = (copy_to_survivor_space envA pssA stA old mA (.unforwarded m0)).ret) := by
  have hwinA := copy_win_eq envA pssA stA old mA m0 pA dA pssA1 evsA hcA hfA
  have hloseB := copy_cas_fail_eq envB pssB stB old mB q pB dB pssB1 evsB hcB hfB
  refine ⟨⟨?_, ?_, ?_, ?_, ?_, ?_⟩, ?_, ?_, ?_, ?_, ?_⟩ <;>
    simp [hwinA, hloseB,
      copy_cas_fail_eq envB pssB stB old mB pA pB dB pssB1 evsB hcB hfB]

/-- Witness for C1 at concrete inputs: worker 2's allocator answers 80, but
it loses the race against worker 1 (who copied to 64) and returns 64. -/
theorem C1_cas_loser_returns_winner_witness :
    (copy_to_survivor_space
        { exEnv with oracle := ⟨fun _ _ _ => some 80, fun _ _ _ => none,
            fun _ _ _ => none⟩ }
        ⟨2, 3, [], [], [], 0, 0⟩ .Young exObj exMark
        (copy_to_survivor_space exEnv exPss .Young exObj exMark
          (.unforwarded exMark)).cell).ret
      = (copy_to_survivor_space exEnv exPss .Young exObj exMark
          (.unforwarded exMark)).ret ∧
    (copy_to_survivor_space exEnv exPss .Young exObj exMark
        (.unforwarded exMark)).ret = 64 :=
  ⟨(C1_cas_loser_returns_winner exEnv
      { exEnv with oracle := ⟨fun _ _ _ => some 80, fun _ _ _ => none,
          fun _ _ _ => none⟩ }
      exPss ⟨2, 3, [], [], [], 0, 0⟩ .Young .Young exObj exMark exMark exMark
      64 80 .Young .Young exPss ⟨2, 3, [], [], [], 0, 0⟩
      [.plabAlloc .Young 4 0 (some 64)] [.plabAlloc .Young 4 0 (some 80)] 7
      rfl rfl (by decide) (by decide)).2.2.2.2.2,
   (C1_cas_loser_returns_winner exEnv
      { exEnv with oracle := ⟨fun _ _ _ => some 80, fun _ _ _ => none,
          fun _ _ _ => none⟩ }
      exPss ⟨2, 3, [], [], [], 0, 0⟩ .Young .Young exObj exMark exMark exMark
      64 80 .Young .Young exPss ⟨2, 3, [], [], [], 0, 0⟩
      [.plabAlloc .Young 4 0 (some 64)] [.plabAlloc .Young 4 0 (some 80)] 7
      rfl rfl (by decide) (by decide)).2.2.1⟩

/-- Claim C4: on a winning copy whose destination class is young (survivor),
the age installed in the destination's header — read displaced-aware, i.e.
from the displaced copy when the header is displaced — and recorded in the
age table equals `min(source age + 1, max_age)`; on a destination of old
(promoted) the original header is installed unchanged and the age table is
untouched. -/
theorem C4_destination_age (env : CopyEnv) (pss : PSS) (state : InCSetState)
    (old : ObjInfo) (old_mark m0 : MarkWord) (p : Nat) (d : InCSetState)
    (pss1 : PSS) (evs : List GCEvent)
    (hf : env.evacShouldFail = false)
    (hc : allocChain env.oracle pss
        (next_state pss.tenuringThreshold state old_mark 0).1 old.size old.context
        = (some (p, d), pss1, evs)) :
    (d.is_young = true → old_mark.readAge ≤ markOopDesc.max_age →
      ∃ dm,
        (copy_to_survivor_space env pss state old old_mark
            (.unforwarded m0)).destMark = some dm ∧
        dm.readAge = min (old_mark.readAge + 1) markOopDesc.max_age ∧
        (copy_to_survivor_space env pss state old old_mark
            (.unforwarded m0)).pss.ageTable
          = pss.ageTable ++ [(dm.readAge, old.size)]) ∧
    (d.is_young = false →
      (copy_to_survivor_space env pss state old old_mark
          (.unforwarded m0)).destMark = some old_mark ∧
      (copy_to_survivor_space env pss state old old_mark
          (.unforwarded m0)).pss.ageTable = pss.ageTable) := by
  have hps : pss1.ageTable = pss.ageTable := by
    have hch := allocChain_pss env.oracle pss
        (next_state pss.tenuringThreshold state old_mark 0).1 old.size old.context
    rw [hc] at hch
    rcases hch with h' | h' <;> simp at h' <;> simp [h']
  rw [copy_win_eq env pss state old old_mark m0 p d pss1 evs hc hf]
  constructor
  · intro hy h15
    -- a young destination was not escalated, so it is what next_state chose
    have hd0 : d = (next_state pss.tenuringThreshold state old_mark 0).1 := by
      rcases allocChain_some_dest env.oracle pss
          (next_state pss.tenuringThreshold state old_mark 0).1 old.size
          old.context p d pss1 evs hc with h' | h'
      · exact h'
      · rw [h'.1] at hy
        simp [InCSetState.is_young] at hy
    have hns := next_state_fst_young pss.tenuringThreshold state old_mark 0
        (by rw [← hd0]; exact hy)
    have hage : (next_state pss.tenuringThreshold state old_mark 0).2
        = old_mark.readAge := by rw [hns.2.2]
    have hbump :
        (if (next_state pss.tenuringThreshold state old_mark 0).2
              < markOopDesc.max_age then
          (next_state pss.tenuringThreshold state old_mark 0).2 + 1
        else (next_state pss.tenuringThreshold state old_mark 0).2)
          = min (old_mark.readAge + 1) markOopDesc.max_age := by
      rw [hage]
      unfold markOopDesc.max_age at h15 ⊢
      rcases Nat.lt_or_ge old_mark.readAge 15 with hlt | hge
      · simp only [if_pos hlt]
        omega
      · have h15' : old_mark.readAge = 15 := le_antisymm h15 hge
        simp [h15']
    by_cases hdisp : old_mark.has_displaced_mark_helper
    · refine ⟨old_mark.set_displaced_mark_helper
          (old_mark.displaced_mark_helper.set_age
            (min (old_mark.readAge + 1) markOopDesc.max_age)), ?_, ?_, ?_⟩
      · simp [hy, hdisp, hbump]
      · simp [MarkWord.readAge, MarkWord.set_displaced_mark_helper,
          MarkWord.has_displaced_mark_helper, MarkWord.displaced_mark_helper,
          PlainMark.set_age]
      · simp [hy, hps, hbump, MarkWord.readAge,
          MarkWord.set_displaced_mark_helper, MarkWord.has_displaced_mark_helper,
          MarkWord.displaced_mark_helper, PlainMark.set_age]
    · have hnone : old_mark.displaced = none := by
        simpa [MarkWord.has_displaced_mark_helper,
          Option.not_isSome_iff_eq_none] using hdisp
      refine ⟨old_mark.set_age (min (old_mark.readAge + 1) markOopDesc.max_age),
          ?_, ?_, ?_⟩
      · simp [hy, hdisp, hbump]
      · simp [MarkWord.readAge, MarkWord.set_age,
          MarkWord.has_displaced_mark_helper, MarkWord.age, hnone]
      · simp [hy, hps, hbump, MarkWord.readAge, MarkWord.set_age,
          MarkWord.has_displaced_mark_helper, MarkWord.age, hnone]
  · intro hy
    simp [hy, hps]

/-- Witness for C4 at concrete inputs: the copied object of age 1 lands in
the survivor space with age 2 = min(1+1, 15), recorded in the age table. -/
theorem C4_destination_age_witness :
    ∃ dm,
      (copy_to_survivor_space exEnv exPss .Young exObj exMark
          (.unforwarded exMark)).destMark = some dm ∧
      dm.readAge = min (exMark.readAge + 1) markOopDesc.max_age ∧
      (copy_to_survivor_space exEnv exPss .Young exObj exMark
          (.unforwarded exMark)).pss.ageTable
        = exPss.ageTable ++ [(dm.readAge, exObj.size)] :=
  (C4_destination_age exEnv exPss .Young exObj exMark exMark 64 .Young exPss
      [.plabAlloc .Young 4 0 (some 64)] rfl (by decide)).1 rfl (by decide)

/-- Claim C7: on a winning copy, an object array whose length exceeds
`ParGCArrayScanChunk` is not scanned inline — its destination length is
zeroed and a masked partial-scan task is pushed; a non-array, or an array
with length below the threshold, is scanned immediately with nothing
pushed. -/
theorem C7_large_array_deferral (env : CopyEnv) (pss : PSS)
    (state : InCSetState) (old : ObjInfo) (old_mark m0 : MarkWord) (p : Nat)
    (d : InCSetState) (pss1 : PSS) (evs : List GCEvent)
    (hf : env.evacShouldFail = false)
    (hc : allocChain env.oracle pss
        (next_state pss.tenuringThreshold state old_mark 0).1 old.size old.context
        = (some (p, d), pss1, evs)) :
    (old.isObjArray = true → env.parGCArrayScanChunk < old.length →
      (copy_to_survivor_space env pss state old old_mark
          (.unforwarded m0)).scannedInline = false ∧
      (copy_to_survivor_space env pss state old old_mark
          (.unforwarded m0)).lengthZeroed = true ∧
      (copy_to_survivor_space env pss state old old_mark
          (.unforwarded m0)).pss.queue
        = pss.queue ++ [GCTask.maskedArray old.ptr]) ∧
    ((old.isObjArray = false ∨ old.length < env.parGCArrayScanChunk) →
      (copy_to_survivor_space env pss state old old_mark
          (.unforwarded m0)).scannedInline = true ∧
      (copy_to_survivor_space env pss state old old_mark
          (.unforwarded m0)).lengthZeroed = false ∧
      (copy_to_survivor_space env pss state old old_mark
          (.unforwarded m0)).pss.queue = pss.queue) := by
  have hq : pss1.queue = pss.queue := by
    have hch := allocChain_pss env.oracle pss
        (next_state pss.tenuringThreshold state old_mark 0).1 old.size old.context
    rw [hc] at hch
    rcases hch with h' | h' <;> simp at h' <;> simp [h']
  rw [copy_win_eq env pss state old old_mark m0 p d pss1 evs hc hf]
  constructor
  · intro ha hl
    have hcond : (old.isObjArray && env.parGCArrayScanChunk ≤ old.length) = true := by
      simp [ha]
      omega
    simp [hcond, hq]
  · intro h
    have hcond : (old.isObjArray && env.parGCArrayScanChunk ≤ old.length) = false := by
      rcases h with h | h <;> simp [h]
    simp [hcond, hq]

/-- Witness for C7 at concrete inputs: a 100-element array against the
threshold 50 is deferred; the plain example object is scanned inline. -/
theorem C7_large_array_deferral_witness :
    ((copy_to_survivor_space exEnv exPss .Young
        { exObj with isObjArray := true, length := 100 } exMark
        (.unforwarded exMark)).scannedInline = false ∧
     (copy_to_survivor_space exEnv exPss .Young
        { exObj with isObjArray := true, length := 100 } exMark
        (.unforwarded exMark)).pss.queue
        = exPss.queue ++ [GCTask.maskedArray exObj.ptr]) ∧
    (copy_to_survivor_space exEnv exPss .Young exObj exMark
        (.unforwarded exMark)).scannedInline = true :=
  ⟨⟨((C7_large_array_deferral exEnv exPss .Young
        { exObj with isObjArray := true, length := 100 } exMark exMark 64
        .Young exPss [.plabAlloc .Young 4 0 (some 64)] rfl (by decide)).1
        rfl (by decide)).1,
    ((C7_large_array_deferral exEnv exPss .Young
        { exObj with isObjArray := true, length := 100 } exMark exMark 64
        .Young exPss [.plabAlloc .Young 4 0 (some 64)] rfl (by decide)).1
        rfl (by decide)).2.2⟩,
   ((C7_large_array_deferral exEnv exPss .Young exObj exMark exMark 64
        .Young exPss [.plabAlloc .Young 4 0 (some 64)] rfl (by decide)).2
        (Or.inl rfl)).1⟩

/-- Environment for the C9 counterexample: both same-class attempts fail and
the allocation is satisfied by cross-class escalation. -/
def cEnv9 : CopyEnv :=
  { oracle := ⟨fun _ _ _ => none, fun _ _ _ => none, fun _ _ _ => some 200⟩,
    dedupEnabled := false, evacShouldFail := false, parGCArrayScanChunk := 50 }

/-- Counterexample to C9 as stated: when the allocation that preceded the
failing CAS was satisfied by `allocate_in_next_plab`, the call does NOT
leave the tenuring threshold at its prior value — it was zeroed (here from
3 to 0) even though the CAS failed and the copy was undone. -/
theorem C9_counterexample :
    (copy_to_survivor_space cEnv9 exPss .Young exObj exMark
        (.forwardedTo 7)).pss.tenuringThreshold = 0 ∧
    exPss.tenuringThreshold = 3 ∧
    (copy_to_survivor_space cEnv9 exPss .Young exObj exMark
        (.forwardedTo 7)).copied = false := by
  refine ⟨by decide, rfl, by decide⟩

/-- Claim C9 as amended: when the forwarding CAS fails, the call leaves the
age table, the surviving-young-words histogram, the queue and the worker id
unchanged, writes no destination header, copies and scans nothing, and —
relative to the state as it stood after the allocation (whose cross-class
escalation may already have zeroed the tenuring threshold) — changes only
the undo-waste counter, increasing it by the object's word size. -/
theorem C9_cas_fail_frame (env : CopyEnv) (pss : PSS) (state : InCSetState)
    (old : ObjInfo) (old_mark : MarkWord) (q p : Nat) (d : InCSetState)
    (pss1 : PSS) (evs : List GCEvent)
    (hf : env.evacShouldFail = false)
    (hc : allocChain env.oracle pss
        (next_state pss.tenuringThreshold state old_mark 0).1 old.size old.context
        = (some (p, d), pss1, evs)) :
    (copy_to_survivor_space env pss state old old_mark
        (.forwardedTo q)).pss.ageTable = pss.ageTable ∧
    (copy_to_survivor_space env pss state old old_mark
        (.forwardedTo q)).pss.survYoungWords = pss.survYoungWords ∧
    (copy_to_survivor_space env pss state old old_mark
        (.forwardedTo q)).pss.queue = pss.queue ∧
    (copy_to_survivor_space env pss state old old_mark
        (.forwardedTo q)).pss.workerId = pss.workerId ∧
    (copy_to_survivor_space env pss state old old_mark
        (.forwardedTo q)).pss.tenuringThreshold = pss1.tenuringThreshold ∧
    (copy_to_survivor_space env pss state old old_mark
        (.forwardedTo q)).pss.allocWaste = pss.allocWaste ∧
    (copy_to_survivor_space env pss state old old_mark
        (.forwardedTo q)).pss.undoWaste = pss.undoWaste + old.size ∧
    (copy_to_survivor_space env pss state old old_mark
        (.forwardedTo q)).destMark = none ∧
    (copy_to_survivor_space env pss state old old_mark
        (.forwardedTo q)).copied = false ∧
    (copy_to_survivor_space env pss state old old_mark
        (.forwardedTo q)).scannedInline = false ∧
    (copy_to_survivor_space env pss state old old_mark
        (.forwardedTo q)).scannedInPlace = false ∧
    (copy_to_survivor_space env pss state old old_mark
        (.forwardedTo q)).lengthZeroed = false := by
  have hch := allocChain_pss env.oracle pss
      (next_state pss.tenuringThreshold state old_mark 0).1 old.size old.context
  rw [hc] at hch
  have hps : pss1.ageTable = pss.ageTable ∧ pss1.survYoungWords = pss.survYoungWords
      ∧ pss1.queue = pss.queue ∧ pss1.workerId = pss.workerId
      ∧ pss1.allocWaste = pss.allocWaste ∧ pss1.undoWaste = pss.undoWaste := by
    rcases hch with h' | h' <;> simp at h' <;> simp [h']
  rw [copy_cas_fail_eq env pss state old old_mark q p d pss1 evs hc hf]
  simp [undoAllocation, hps.1, hps.2.1, hps.2.2.1, hps.2.2.2.1,
    hps.2.2.2.2.1, hps.2.2.2.2.2]

/-- Witness for C9 (amended) at concrete inputs. -/
theorem C9_cas_fail_frame_witness :
    (copy_to_survivor_space exEnv exPss .Young exObj exMark
        (.forwardedTo 7)).pss.undoWaste = exPss.undoWaste + exObj.size ∧
    (copy_to_survivor_space exEnv exPss .Young exObj exMark
        (.forwardedTo 7)).pss.ageTable = exPss.ageTable :=
  ⟨(C9_cas_fail_frame exEnv exPss .Young exObj exMark 7 64 .Young exPss
      [.plabAlloc .Young 4 0 (some 64)] rfl (by decide)).2.2.2.2.2.2.1,
   (C9_cas_fail_frame exEnv exPss .Young exObj exMark 7 64 .Young exPss
      [.plabAlloc .Young 4 0 (some 64)] rfl (by decide)).1⟩

/-- If `trim_queue` returns, the queue it returns is empty. -/
lemma trim_queue_empty (cap : Nat) (dispatch : GCTask → List GCTask) :
    ∀ fuel q q', trim_queue cap dispatch fuel q = some q' →
      q'.is_empty = true := by
  intro fuel
  induction fuel with
  | zero =>
    intro q q' h
    simp [trim_queue] at h
  | succ n ih =>
    intro q q' h
    unfold trim_queue at h
    cases h1 : drainOverflow cap dispatch n q with
    | none => rw [h1] at h; simp at h
    | some q1 =>
      rw [h1] at h
      have h' : (match drainLocal cap dispatch n q1 with
          | none => none
          | some q2 =>
              if q2.is_empty = true then some q2
              else trim_queue cap dispatch n q2) = some q' := h
      cases h2 : drainLocal cap dispatch n q1 with
      | none => rw [h2] at h'; simp at h'
      | some q2 =>
        rw [h2] at h'
        by_cases he : q2.is_empty
        · simp only [he, if_true] at h'
          cases h'
          exact he
        · simp only [he, if_false, Bool.false_eq_true] at h'
          exact ih q2 q' h'

/-- When the overflow-draining loop returns, the overflow part is empty. -/
lemma drainOverflow_empty (cap : Nat) (dispatch : GCTask → List GCTask) :
    ∀ fuel q q', drainOverflow cap dispatch fuel q = some q' →
      q'.overflowElems = [] := by
  intro fuel
  induction fuel with
  | zero =>
    intro q q' h
    simp [drainOverflow] at h
  | succ n ih =>
    intro q q' h
    unfold drainOverflow at h
    cases h0 : q.overflowElems with
    | nil =>
      rw [h0] at h
      cases h
      exact h0
    | cons t rest =>
      rw [h0] at h
      exact ih _ q' h

/-- Claim C8: each round of `trim_queue` drains the overflow part to
emptiness before popping the local part (`drainOverflow` only ever returns
with an empty overflow), and `trim_queue` itself returns only a queue whose
two parts are both empty — new children enqueued while dispatching are
handled by further rounds before it returns. -/
theorem C8_trim_queue_drains (cap : Nat) (dispatch : GCTask → List GCTask)
    (fuel : Nat) (q q' : RefQueue) :
    (trim_queue cap dispatch fuel q = some q' → q'.is_empty = true) ∧
    (drainOverflow cap dispatch fuel q = some q' → q'.overflowElems = []) :=
  ⟨trim_queue_empty cap dispatch fuel q q',
   drainOverflow_empty cap dispatch fuel q q'⟩

/-- Example dispatch used by the C8 witness: processing reference 0
enqueues a new child (reference 1); with local capacity 0 the child lands in
the overflow part, forcing a second round of the outer loop. -/
def exDispatch : GCTask → List GCTask
  | .ref 0 => [.ref 1]
  | _ => []

/-- Witness for C8 at concrete inputs: dispatching enqueues a child, a
second round drains it, and the returned queue is empty. -/
theorem C8_trim_queue_drains_witness :
    trim_queue 0 exDispatch 10 ⟨[.ref 0], []⟩ = some ⟨[], []⟩ ∧
    RefQueue.is_empty ⟨[], []⟩ = true :=
  ⟨by decide,
   (C8_trim_queue_drains 0 exDispatch 10 ⟨[.ref 0], []⟩ ⟨[], []⟩).1 (by decide)⟩
